import Mathlib

/-!
Shallow embedding of `openlrm/models/modeling_lrm.py` (Tailor3D, class
`ModelLRM`).

Tensors are modelled at two levels:

* an index level, where a tensor is a total function from its integer
  indices to values (used for the axis-flip logic of the dual-view fuser
  and for the reshape/upsample index bookkeeping of `reshape_upsample`);
* a shape level, where only the list of dimension sizes of every tensor is
  tracked, and every operation either returns the result shape or the
  runtime error the corresponding Python/torch call would raise (used for
  the constructor, `freeze_modules`, `forward_planes` and the top-level
  `forward` facade).

External collaborators (the DINO feature encoder, the camera embedder, the
transformer decoder, the swin cross-attention layer, the triplane
synthesizer and the learned upsampler weights) are passed in as opaque
function parameters; only the orchestration code of `modeling_lrm.py` is
embedded concretely.
-/

namespace Tailor3D

deriving instance DecidableEq for Except

/-- A 2-D tensor as a total function of its indices. -/
abbrev T2 (α : Type) : Type := Nat → Nat → α

/-- A 3-D tensor as a total function of its indices. -/
abbrev T3 (α : Type) : Type := Nat → Nat → Nat → α

/-- A 4-D tensor as a total function of its indices. -/
abbrev T4 (α : Type) : Type := Nat → Nat → Nat → Nat → α

/-- A 5-D tensor as a total function of its indices
(batch, plane, channel, height, width). -/
abbrev T5 (α : Type) : Type := Nat → Nat → Nat → Nat → Nat → α

/-- `planes[:, i, :, :, :]`: select plane `i` of a 5-D triplane tensor. -/
def getPlane (i : Nat) (p : T5 α) : T4 α := fun n d h w => p n i d h w

/-- `planes[:, i, :, :, :] = v`: write tensor `v` into plane slot `i`. -/
def setPlane (i : Nat) (v : T4 α) (p : T5 α) : T5 α :=
  fun n j d h w => if j = i then v n d h w else p n j d h w

/-- `torch.flip(x, dims=[-2, -1])` on an `(N, D, H, W)` tensor of height
`H` and width `W`: both spatial axes reversed. -/
def flipHW (H W : Nat) (x : T4 α) : T4 α :=
  fun n d h w => x n d (H - 1 - h) (W - 1 - w)

/-- `torch.flip(x, dims=[-1])` on an `(N, D, H, W)` tensor of width `W`:
width axis reversed. -/
def flipW (W : Nat) (x : T4 α) : T4 α :=
  fun n d h w => x n d h (W - 1 - w)

/-- `torch.flip(x, dims=[-2])` on an `(N, D, H, W)` tensor of height `H`:
height axis reversed. -/
def flipH (H : Nat) (x : T4 α) : T4 α :=
  fun n d h w => x n d (H - 1 - h) w

/-- Lines 212-217 of `modeling_lrm.py`: the geometric correction applied to
`back_planes` before any learned fusion.  The three in-place slice
assignments are sequential; they touch pairwise disjoint plane slots, which
the functional composition below reproduces exactly (the plane-1 read sees
the tensor after the plane-0 write, and so on). -/
def backCorrection (H W : Nat) (p : T5 α) : T5 α :=
  let p0 := setPlane 0 (flipHW H W (getPlane 0 p)) p
  let p1 := setPlane 1 (flipW W (getPlane 1 p0)) p0
  setPlane 2 (flipH H (getPlane 2 p1)) p1

/-- A synthetic triplane holding marker value `m` at exactly index
`(n0, i0, d0, r0, c0)` and background value `b` everywhere else. -/
def marker (n0 i0 d0 r0 c0 : Nat) (m b : α) : T5 α :=
  fun n i d h w =>
    if n = n0 ∧ i = i0 ∧ d = d0 ∧ h = r0 ∧ w = c0 then m else b

/-- The mirrored position dictated by the per-plane flip policy of the
spec (plane 0: flip height and width; plane 1: flip width only;
plane 2: flip height only), for a marker at `(r0, c0)` in plane `i0`. -/
def flipTarget (H W i0 r0 c0 : Nat) : Nat × Nat :=
  if i0 = 0 then (H - 1 - r0, W - 1 - c0)
  else if i0 = 1 then (r0, W - 1 - c0)
  else if i0 = 2 then (H - 1 - r0, c0)
  else (r0, c0)

/-- Lines 157-167 of `modeling_lrm.py`: `reshape_upsample`.
`tokens` is an `(N, 3·H·W, feat)` tensor; `ups` is the shared learned
upsampler (`self.upsampler`), a per-batch-element map from a
`(feat, H, W)` grid to a `(D, H2, W2)` grid, applied independently to each
element of the stacked batch axis (this is exactly how a torch 2-D
convolution acts on its batch dimension, with one shared weight set).

* `x1` is `tokens.view(N, 3, H, W, -1)`;
* `x2` is `torch.einsum('nihwd->indhw', x1)`;
* `x3` is `x.contiguous().view(3*N, -1, H, W)` (stacked index `j = i*N + n`);
* `y`  is `self.upsampler(x)` applied per stacked element;
* `y2` is `x.view(3, N, *x.shape[-3:])`;
* the result is `torch.einsum('indhw->nidhw', x)`. -/
def reshape_upsample (N H W : Nat) (ups : T3 α → T3 α) (tokens : T3 α) : T5 α :=
  let x1 : T5 α := fun n i h w d => tokens n (i * (H * W) + h * W + w) d
  let x2 : T5 α := fun i n d h w => x1 n i h w d
  let x3 : Nat → T3 α := fun j => fun d h w => x2 (j / N) (j % N) d h w
  let y : Nat → T3 α := fun j => ups (x3 j)
  let y2 : T5 α := fun i n d h w => y (i * N + n) d h w
  fun n i d h w => y2 i n d h w

/-- Lines 145-155 and 169-191 of `modeling_lrm.py`: value-level
`forward_planes` (together with the `forward_transformer` helper it calls).
The external encoder `enc`, camera embedder `camE` and transformer decoder
`tr` are opaque parameters; `pos` is the learned positional grid
`self.pos_embed` (batch dimension 1), broadcast to batch size by
`self.pos_embed.repeat(N, 1, 1)`; `ups` is the learned upsampler used by
`reshape_upsample`. -/
def forward_planes (enc : T4 α → T3 α) (camE : T2 α → T2 α)
    (tr : T3 α → T3 α → T2 α → T3 α) (pos : T3 α)
    (N H W : Nat) (ups : T3 α → T3 α) (image : T4 α) (camera : T2 α) : T5 α :=
  let feats := enc image
  let emb := camE camera
  let x : T3 α := fun _n l d => pos 0 l d
  let tokens := tr x feats emb
  reshape_upsample N H W ups tokens

/-- Concrete fixture: an identity-style upsampler for witnesses. -/
def upsFix : T3 Int → T3 Int := fun g d h w => g d h w + 1

/-- Concrete fixture: a token tensor for witnesses. -/
def tokensFix : T3 Int := fun n l d => (n : Int) * 100 + l * 10 + d

/-- Concrete fixture: an image tensor for witnesses. -/
def imageFix : T4 Int := fun n c h w => (n : Int) + c + h + w

/-- Concrete fixture: a camera tensor for witnesses. -/
def cameraFix : T2 Int := fun n d => (n : Int) * 7 + d

/-! ### Shape-level model

A tensor is now represented only by its shape, the list of its dimension
sizes.  Every embedded operation returns either the result shape or the
error the corresponding Python/torch call would raise. -/

abbrev Shape := List Nat

/-- The runtime errors of the embedded code: the `ValueError` and
`AssertionError` messages raised by `modeling_lrm.py` itself, plus the
torch/Python errors its tensor calls can raise. -/
inductive LrmError where
  | unsupportedEncoderType
  | noFusionMethod
  | posEmbedNoParamsAttr
  | featDimMismatch
  | camDimMismatch
  | batchMismatchFeats
  | viewSizeMismatch
  | convShapeMismatch
  | layerNormShapeMismatch
  | planesBatchMismatch
  | planesNotThree
  | batchMismatchSourceCamera
  | batchMismatchRenderCameras
  | batchMismatchRenderAnchors
  | batchMismatchRenderBgColors
  | indexOutOfRange
  | unpackMismatch
  | catShapeMismatch
  | unboundLocalPlanes
  | renderBatchMismatch
  | renderViewCountMismatch
  deriving DecidableEq

/-- The constructor arguments of `ModelLRM` (lines 34-40). -/
structure Config where
  camera_embed_dim : Nat
  rendering_samples_per_ray : Nat
  transformer_dim : Nat
  transformer_layers : Nat
  transformer_heads : Nat
  triplane_low_res : Nat
  triplane_high_res : Nat
  triplane_dim : Nat
  encoder_freeze : Bool
  encoder_type : String
  encoder_model_name : String
  encoder_feat_dim : Nat
  model_lora_rank : Nat
  conv_fuse : Bool
  swin_ca_fuse : Bool
  ca_dim : Nat
  ca_depth : Nat
  ca_num_heads : Nat
  ca_window_size : Nat
  deriving DecidableEq

/-- `requires_grad` of each top-level submodule slot of the model (the
granularity used by `freeze_modules`; the finer per-parameter state inside
a module is not distinguished). -/
structure FreezeState where
  encoder : Bool
  camera_embedder : Bool
  pos_embed : Bool
  transformer : Bool
  upsampler : Bool
  synthesizer : Bool
  deriving DecidableEq

/-- Freshly constructed parameters: every slot has `requires_grad=True`. -/
def freshFreezeState : FreezeState :=
  ⟨true, true, true, true, true, true⟩

/-- The submodule slots whose parameters `freeze_modules` can freeze
(every slot except the bare `pos_embed` parameter). -/
inductive FreezeSlot where
  | encSlot
  | camSlot
  | transSlot
  | upsSlot
  | synthSlot
  deriving DecidableEq

/-- One `if <flag>: for param in <module>.parameters(): param.requires_grad
= False` block of `freeze_modules`. -/
def freezeIf (b : Bool) (slot : FreezeSlot) (s : FreezeState) : FreezeState :=
  if b then
    match slot with
    | .encSlot => { s with encoder := false }
    | .camSlot => { s with camera_embedder := false }
    | .transSlot => { s with transformer := false }
    | .upsSlot => { s with upsampler := false }
    | .synthSlot => { s with synthesizer := false }
  else s

/-- Lines 107-130: `freeze_modules`.  Each `if` block sets
`requires_grad = False` on the parameters of one submodule, in source
order.  `self.pos_embed` is a bare `nn.Parameter` (a tensor, line 62), not
an `nn.Module`, so `self.pos_embed.parameters()` raises `AttributeError`.
(In Python the encoder and camera-embedder blocks have already mutated
their flags when that error is raised; the `Except` result carries no
state on the error path, so only the success-path state is modelled.) -/
def freeze_modules (encoder camera_embedder pos_embed transformer upsampler
    synthesizer : Bool) (s : FreezeState) : Except LrmError FreezeState :=
  if pos_embed then
    .error .posEmbedNoParamsAttr
  else
    .ok (freezeIf synthesizer .synthSlot
      (freezeIf upsampler .upsSlot
        (freezeIf transformer .transSlot
          (freezeIf camera_embedder .camSlot
            (freezeIf encoder .encSlot s)))))

/-- The constructed model: its configuration and the per-module
`requires_grad` state left by the constructor. -/
structure Model where
  cfg : Config
  trainState : FreezeState
  deriving DecidableEq

/-- Python `str.lower()` on the ASCII identifiers used for encoder types,
as the character list of the lowered string. -/
def strLower (s : String) : List Char := s.data.map Char.toLower

/-- Lines 34-104: the `ModelLRM` constructor.  `_encoder_fn` (line 135)
asserts the lower-cased encoder type is `dino` or `dinov2`; with
`model_lora_rank > 0` exactly one of the fusion modules is built and the
freeze policy is applied (`pos_embed=False` in both calls, lines 95-102),
and with neither fusion flag a `ValueError` is raised (line 104).  The
lora-specific re-marking inside the transformer is external and below the
granularity of `FreezeState`. -/
def init (cfg : Config) : Except LrmError Model :=
  if strLower cfg.encoder_type = "dino".data ∨
      strLower cfg.encoder_type = "dinov2".data then
    if 0 < cfg.model_lora_rank then
      if cfg.conv_fuse then
        match freeze_modules true true false false false false freshFreezeState with
        | .ok s => .ok ⟨cfg, s⟩
        | .error e => .error e
      else if cfg.swin_ca_fuse then
        match freeze_modules true true false false false false freshFreezeState with
        | .ok s => .ok ⟨cfg, s⟩
        | .error e => .error e
      else .error .noFusionMethod
    else .ok ⟨cfg, freshFreezeState⟩
  else .error .unsupportedEncoderType

/-- `t.shape[0]`; `IndexError` on a 0-d tensor. -/
def dim0 : Shape → Except LrmError Nat
  | [] => .error .indexOutOfRange
  | n :: _ => .ok n

/-- `t.shape[1]`; `IndexError` on a tensor of fewer than 2 dimensions. -/
def dim1 : Shape → Except LrmError Nat
  | _ :: m :: _ => .ok m
  | _ => .error .indexOutOfRange

/-- `nn.Conv2d(cin, cout, kernel_size=(3,3), stride=(1,1), padding=1)` at
shape level: input must be 4-D with `cin` channels and a non-empty output
grid; output spatial size is `(h + 2*1 - 3)/1 + 1`. -/
def conv2d_k3s1p1 (cin cout : Nat) : Shape → Except LrmError Shape
  | [b, c, h, w] =>
    if c = cin ∧ 1 ≤ h ∧ 1 ≤ w then
      .ok [b, cout, (h + 2 * 1 - 3) / 1 + 1, (w + 2 * 1 - 3) / 1 + 1]
    else .error .convShapeMismatch
  | _ => .error .unpackMismatch

/-- `nn.LayerNorm([d0, d1, d2])` at shape level: the trailing three input
dimensions must equal the normalized shape; output shape unchanged. -/
def layerNorm3 (d0 d1 d2 : Nat) : Shape → Except LrmError Shape
  | [b, c, h, w] =>
    if c = d0 ∧ h = d1 ∧ w = d2 then .ok [b, c, h, w]
    else .error .layerNormShapeMismatch
  | _ => .error .unpackMismatch

/-- `nn.ConvTranspose2d(cin, cout, kernel_size=2, stride=2, padding=0)`
(line 77, `self.upsampler`) at shape level: output spatial size is
`(h - 1)*2 - 2*0 + (2 - 1) + 1`. -/
def convTranspose2d_k2s2 (cin cout : Nat) : Shape → Except LrmError Shape
  | [b, c, h, w] =>
    if c = cin ∧ 1 ≤ h ∧ 1 ≤ w then
      .ok [b, cout, (h - 1) * 2 + (2 - 1) + 1, (w - 1) * 2 + (2 - 1) + 1]
    else .error .convShapeMismatch
  | _ => .error .unpackMismatch

/-- Lines 157-167 at shape level: `reshape_upsample`.  The
`view(N, 3, H, W, -1)` infers the feature dimension (the divisor must
divide the per-batch element count); the permutation and
`view(3*N, -1, H, W)` stack the planes into the batch axis; the shared
upsampler maps `transformer_dim` channels to `triplane_dim`; the final
views restore `(N, 3, D2, H2, W2)`. -/
def reshape_upsampleShape (cfg : Config) (tokens : Shape) :
    Except LrmError Shape :=
  match tokens with
  | [n, l, d] =>
    if 0 < 3 * cfg.triplane_low_res * cfg.triplane_low_res ∧
        (3 * cfg.triplane_low_res * cfg.triplane_low_res) ∣ (l * d) then
      match convTranspose2d_k2s2 cfg.transformer_dim cfg.triplane_dim
          [3 * n, l * d / (3 * cfg.triplane_low_res * cfg.triplane_low_res),
            cfg.triplane_low_res, cfg.triplane_low_res] with
      | .ok [_, d2, h2, w2] => .ok [n, 3, d2, h2, w2]
      | .ok _ => .error .unpackMismatch
      | .error e => .error e
    else .error .viewSizeMismatch
  | _ => .error .unpackMismatch

/-- Modelled from the spec: `TransformerDecoder`
(`openlrm/models/transformer.py`, not under `src/`) — by its interface
`decode(tokens: Tensor[N,L,D], cond, mod) -> Tensor[N,L,D]` the decoder
returns tokens of the same shape as its primary input. -/
def transformerShapeContract (tokens _cond _mod : Shape) : Shape := tokens

/-- Lines 145-155 and 169-191 at shape level: `forward_planes` together
with the `forward_transformer` helper it calls.  `enc`, `camE` and `tr`
are the shape maps of the external encoder, camera embedder and
transformer decoder.  The two dimension asserts, the batch assert of
`forward_transformer`, the positional-grid broadcast
(`self.pos_embed.repeat(N, 1, 1)`, shape `(N, 3*low_res**2,
transformer_dim)`), `reshape_upsample`, and the two post-condition
asserts appear in source order. -/
def forward_planesShape (m : Model) (enc camE : Shape → Shape)
    (tr : Shape → Shape → Shape → Shape) (image camera : Shape) :
    Except LrmError Shape :=
  match dim0 image with
  | .error e => .error e
  | .ok N =>
    if (enc image).getLast? = some m.cfg.encoder_feat_dim then
      if (camE camera).getLast? = some m.cfg.camera_embed_dim then
        match dim0 (enc image) with
        | .error e => .error e
        | .ok fN =>
          match dim0 (camE camera) with
          | .error e => .error e
          | .ok cN =>
            if fN = cN then
              match reshape_upsampleShape m.cfg
                  (tr [N, 3 * m.cfg.triplane_low_res ^ 2, m.cfg.transformer_dim]
                    (enc image) (camE camera)) with
              | .error e => .error e
              | .ok planes =>
                match dim0 planes with
                | .error e => .error e
                | .ok p0 =>
                  if p0 = N then
                    match dim1 planes with
                    | .error e => .error e
                    | .ok p1 =>
                      if p1 = 3 then .ok planes else .error .planesNotThree
                  else .error .planesBatchMismatch
            else .error .batchMismatchFeats
      else .error .camDimMismatch
    else .error .featDimMismatch

/-- `torch.cat((front, back), dim=2)` on 5-D tensors: all dimensions other
than dim 2 must agree. -/
def catDim2 : Shape → Shape → Except LrmError Shape
  | [n, p, c, h, w], [n2, p2, c2, h2, w2] =>
    if n = n2 ∧ p = p2 ∧ h = h2 ∧ w = w2 then .ok [n, p, c + c2, h, w]
    else .error .catShapeMismatch
  | _, _ => .error .catShapeMismatch

/-- `t.reshape(-1, a, b, c)`: the leading dimension is inferred from the
element count, which `a*b*c` must divide. -/
def reshapeInfer3 (a b c numel : Nat) : Except LrmError Shape :=
  if 0 < a * b * c ∧ (a * b * c) ∣ numel then
    .ok [numel / (a * b * c), a, b, c]
  else .error .viewSizeMismatch

/-- `t.view(bs, np, -1, h, w)`: the middle dimension is inferred from the
element count, which `bs*np*h*w` must divide. -/
def viewInfer5 (bs np h w numel : Nat) : Except LrmError Shape :=
  if 0 < bs * np * h * w ∧ (bs * np * h * w) ∣ numel then
    .ok [bs, np, numel / (bs * np * h * w), h, w]
  else .error .viewSizeMismatch

/-- Lines 221-229: the convolutional fusion branch, including the
`front_back_conv` stack built in the constructor (lines 86-94):
`Conv2d(2D→4D, 3, 1, 1)`, `LayerNorm([4D, high, high])`, `GELU`,
`Conv2d(4D→4D, 3, 1, 1)`, `LayerNorm([4D, high, high])`, `GELU`,
`Conv2d(4D→D, 3, 1, 1)` (`GELU` is elementwise, shape-preserving), then
`planes.view(bs, num_planes, -1, height, width)`.  The local unpack
`bs, num_planes, channels, height, width = front_planes.shape` of line
220 is done by the caller (`fusePlanes`). -/
def convFuseShape (cfg : Config) (bs np channels height width : Nat)
    (back : Shape) : Except LrmError Shape :=
  match catDim2 [bs, np, channels, height, width] back with
  | .error e => .error e
  | .ok cat =>
    match reshapeInfer3 (channels * 2) height width cat.prod with
    | .error e => .error e
    | .ok flat =>
      match conv2d_k3s1p1 (cfg.triplane_dim * 2) (cfg.triplane_dim * 4) flat with
      | .error e => .error e
      | .ok x1 =>
        match layerNorm3 (cfg.triplane_dim * 4) cfg.triplane_high_res
            cfg.triplane_high_res x1 with
        | .error e => .error e
        | .ok x2 =>
          match conv2d_k3s1p1 (cfg.triplane_dim * 4) (cfg.triplane_dim * 4) x2 with
          | .error e => .error e
          | .ok x3 =>
            match layerNorm3 (cfg.triplane_dim * 4) cfg.triplane_high_res
                cfg.triplane_high_res x3 with
            | .error e => .error e
            | .ok x4 =>
              match conv2d_k3s1p1 (cfg.triplane_dim * 4) cfg.triplane_dim x4 with
              | .error e => .error e
              | .ok x5 => viewInfer5 bs np height width x5.prod

/-- Lines 230-233: the cross-attention fusion branch.  `ca` is the shape
map of the first tensor returned by the external `CrossAttentionLayer`.
Both triplanes are reshaped with the dimensions unpacked from
`front_planes.shape` (so `back` must have the same element count), then
`reshape(bs*np, channels, height*width).permute(0, 2, 1)`; the fused
tokens are permuted back and reshaped to `(bs, np, channels, height,
width)`, which must match their element count. -/
def swinCaFuseShape (ca : Shape → Shape → Shape)
    (bs np channels height width : Nat) (back : Shape) :
    Except LrmError Shape :=
  if back.prod = bs * np * channels * height * width then
    match ca [bs * np, height * width, channels]
        [bs * np, height * width, channels] with
    | [a, b, c] =>
      if a * c * b = bs * np * channels * height * width then
        .ok [bs, np, channels, height, width]
      else .error .viewSizeMismatch
    | _ => .error .unpackMismatch
  else .error .viewSizeMismatch

/-- Lines 219-233: unpack `front_planes.shape` (line 220) and dispatch on
the fusion flags.  With neither flag set no branch assigns the local
variable `planes`, and Python raises `UnboundLocalError` when `planes` is
read at the synthesizer call (line 238). -/
def fusePlanes (m : Model) (ca : Shape → Shape → Shape) (front back : Shape) :
    Except LrmError Shape :=
  match front with
  | [bs, np, channels, height, width] =>
    if m.cfg.conv_fuse then convFuseShape m.cfg bs np channels height width back
    else if m.cfg.swin_ca_fuse then
      swinCaFuseShape ca bs np channels height width back
    else .error .unboundLocalPlanes
  | _ => .error .unpackMismatch

/-- Lines 208-235: the triplane computation of `forward`: the single-view
call, or the dual-view branch — two `forward_planes` calls, the three
`torch.flip` slice assignments (shape-preserving, see `backCorrection`
for their index-level content; they need a 5-D tensor), and the fusion
dispatch. -/
def computePlanes (m : Model) (enc camE : Shape → Shape)
    (tr : Shape → Shape → Shape → Shape) (ca : Shape → Shape → Shape)
    (image source_camera : Shape) (image_back : Option Shape) :
    Except LrmError Shape :=
  match image_back with
  | some ib =>
    match forward_planesShape m enc camE tr image source_camera with
    | .error e => .error e
    | .ok front =>
      match forward_planesShape m enc camE tr ib source_camera with
      | .error e => .error e
      | .ok back =>
        match back with
        | [_, _, _, _, _] => fusePlanes m ca front back
        | _ => .error .indexOutOfRange
  | none => forward_planesShape m enc camE tr image source_camera

/-- Lines 202-205: the four batch-size asserts of `forward`, in source
order.  `render_resolutions` is not among the checked tensors. -/
def validateBatches (image source_camera render_cameras render_anchors
    render_bg_colors : Shape) : Except LrmError Unit :=
  match dim0 image with
  | .error e => .error e
  | .ok iN =>
    match dim0 source_camera with
    | .error e => .error e
    | .ok scN =>
      if iN = scN then
        match dim0 render_cameras with
        | .error e => .error e
        | .ok rcN =>
          if iN = rcN then
            match dim0 render_anchors with
            | .error e => .error e
            | .ok raN =>
              if iN = raN then
                match dim0 render_bg_colors with
                | .error e => .error e
                | .ok rbN =>
                  if iN = rbN then .ok () else .error .batchMismatchRenderBgColors
              else .error .batchMismatchRenderAnchors
          else .error .batchMismatchRenderCameras
      else .error .batchMismatchSourceCamera

/-- The dictionary returned by the external `TriplaneSynthesizer`: its
`images_rgb` entry and the remaining auxiliary entries. -/
structure RenderOut where
  images_rgb : Shape
  aux : Shape
  deriving DecidableEq

/-- The result of the top-level `forward`: the triplane merged with all
renderer outputs. -/
structure LrmOut where
  planes : Shape
  images_rgb : Shape
  aux : Shape
  deriving DecidableEq

/-- Lines 193-245: the top-level `forward` facade.  Batch validation, the
unpack `N, M = render_cameras.shape[:2]` (line 206), the dispatch to the
single- or dual-view triplane path, the synthesizer call (`synth` is its
shape map), and the two post-condition asserts on `images_rgb`, in source
order. -/
def forwardShape (m : Model) (enc camE : Shape → Shape)
    (tr : Shape → Shape → Shape → Shape) (ca : Shape → Shape → Shape)
    (synth : Shape → Shape → Shape → Shape → Shape → Nat → RenderOut)
    (image source_camera render_cameras render_anchors render_resolutions
      render_bg_colors : Shape) (render_region_size : Nat)
    (image_back : Option Shape) : Except LrmError LrmOut :=
  match validateBatches image source_camera render_cameras render_anchors
      render_bg_colors with
  | .error e => .error e
  | .ok _ =>
    match render_cameras with
    | N :: M :: _ =>
      match computePlanes m enc camE tr ca image source_camera image_back with
      | .error e => .error e
      | .ok planes =>
        match (synth planes render_cameras render_anchors render_resolutions
            render_bg_colors render_region_size).images_rgb with
        | rN :: rM :: _ =>
          if rN = N then
            if rM = M then
              .ok ⟨planes,
                (synth planes render_cameras render_anchors render_resolutions
                  render_bg_colors render_region_size).images_rgb,
                (synth planes render_cameras render_anchors render_resolutions
                  render_bg_colors render_region_size).aux⟩
            else .error .renderViewCountMismatch
          else .error .renderBatchMismatch
        | _ => .error .indexOutOfRange
    | _ => .error .unpackMismatch

/-- The errors raised by the four batch-size asserts of `forward`. -/
def isBatchAssert : LrmError → Bool
  | .batchMismatchSourceCamera => true
  | .batchMismatchRenderCameras => true
  | .batchMismatchRenderAnchors => true
  | .batchMismatchRenderBgColors => true
  | _ => false

/-- The triplane shape produced by `forward_planes` for batch size `N`:
all dimensions other than the batch dimension are fixed by the
configuration (plane count 3, `triplane_dim` channels, and the spatial
size of the `ConvTranspose2d(kernel=2, stride=2)` upsampler applied to a
`triplane_low_res` grid). -/
def configuredPlaneShape (cfg : Config) (N : Nat) : Shape :=
  [N, 3, cfg.triplane_dim,
    (cfg.triplane_low_res - 1) * 2 + (2 - 1) + 1,
    (cfg.triplane_low_res - 1) * 2 + (2 - 1) + 1]

/-- Concrete fixture: a configuration with `model_lora_rank = 0` and
neither fusion flag. -/
def cfgNoFuse : Config :=
  { camera_embed_dim := 3, rendering_samples_per_ray := 4,
    transformer_dim := 2, transformer_layers := 1, transformer_heads := 1,
    triplane_low_res := 1, triplane_high_res := 2, triplane_dim := 1,
    encoder_freeze := true, encoder_type := "dino",
    encoder_model_name := "facebook/dino-vitb16", encoder_feat_dim := 4,
    model_lora_rank := 0, conv_fuse := false, swin_ca_fuse := false,
    ca_dim := 32, ca_depth := 2, ca_num_heads := 8, ca_window_size := 2 }

/-- Concrete fixture: `model_lora_rank = 1` with neither fusion flag. -/
def cfgLoraNoFuse : Config :=
  { cfgNoFuse with model_lora_rank := 1 }

/-- Concrete fixture: `model_lora_rank = 1` with convolutional fusion. -/
def cfgConvLora : Config :=
  { cfgNoFuse with model_lora_rank := 1, conv_fuse := true }

/-- Concrete fixture: `model_lora_rank = 1` with cross-attention fusion. -/
def cfgSwinLora : Config :=
  { cfgNoFuse with model_lora_rank := 1, swin_ca_fuse := true }

/-- Concrete fixture: the model built from `cfgNoFuse`. -/
def mNoFuse : Model := ⟨cfgNoFuse, freshFreezeState⟩

/-- Concrete fixture: the model built from `cfgConvLora` (encoder and
camera embedder frozen by the constructor). -/
def mConvLora : Model :=
  ⟨cfgConvLora, ⟨false, false, true, true, true, true⟩⟩

/-- Concrete fixture: the model built from `cfgSwinLora`. -/
def mSwinLora : Model :=
  ⟨cfgSwinLora, ⟨false, false, true, true, true, true⟩⟩

/-- Concrete fixture: encoder shape map returning 5 tokens of feature
dimension 4 per batch element. -/
def encFix : Shape → Shape
  | n :: _ => [n, 5, 4]
  | [] => [0, 5, 4]

/-- Concrete fixture: encoder shape map with the wrong feature dimension. -/
def encBad : Shape → Shape
  | n :: _ => [n, 5, 999]
  | [] => [0, 5, 999]

/-- Concrete fixture: camera embedder shape map with embedding dim 3. -/
def camEFix : Shape → Shape
  | n :: _ => [n, 3]
  | [] => [0, 3]

/-- Concrete fixture: camera embedder shape map with the wrong dim. -/
def camEBad : Shape → Shape
  | n :: _ => [n, 999]
  | [] => [0, 999]

/-- Concrete fixture: a cross-attention shape map returning its first
argument (the contract of `CrossAttentionLayer`). -/
def caFix : Shape → Shape → Shape := fun f _ => f

/-- Concrete fixture: a synthesizer shape map echoing the render-camera
shape as `images_rgb`. -/
def synthFix : Shape → Shape → Shape → Shape → Shape → Nat → RenderOut :=
  fun _p rc _a _r _b _s => ⟨rc, []⟩

/-- Helper: an `if`-expression with distinct branches equals its first
branch exactly when the condition holds. -/
theorem ite_eq_first_iff {m b : α} (hmb : m ≠ b) (C : Prop) [Decidable C] :
    ((if C then m else b) = m) ↔ C := by
  by_cases h : C
  · simp [h]
  · simp [h]
    exact fun hbm => absurd hbm.symm hmb

/-- C1: with a marker value placed at `(n0, i0, d0, r0, c0)` of the back
triplane (background everywhere else), the geometric correction of lines
212-217 moves the marker to exactly the mirrored position given by the
per-plane policy — plane 0 flips height and width, plane 1 flips only
width, plane 2 flips only height — and the marker appears nowhere else. -/
theorem backCorrection_marker {α : Type} (H W n0 i0 d0 r0 c0 : Nat)
    (m b : α) (hmb : m ≠ b)
    (hi0 : i0 < 3) (hr0 : r0 < H) (hc0 : c0 < W)
    (n i d h w : Nat) (hi : i < 3) (hh : h < H) (hw : w < W) :
    backCorrection H W (marker n0 i0 d0 r0 c0 m b) n i d h w = m ↔
      (n = n0 ∧ i = i0 ∧ d = d0 ∧ (h, w) = flipTarget H W i0 r0 c0) := by
  simp only [backCorrection, setPlane, getPlane, flipHW, flipW, flipH,
    marker, flipTarget]
  interval_cases i <;> interval_cases i0 <;>
    simp only [reduceIte, Nat.reduceEqDiff] <;>
    rw [ite_eq_first_iff hmb] <;>
    simp only [Prod.mk.injEq, eq_self_iff_true, true_and, and_true,
      false_and, and_false] <;>
    omega

/-- C1 witness: concrete instance of `backCorrection_marker`. -/
theorem backCorrection_marker_witness :
    backCorrection 4 5 (marker 0 1 2 1 3 (1 : Int) 0) 0 1 2 1 1 = 1 ↔
      (0 = 0 ∧ 1 = 1 ∧ 2 = 2 ∧ ((1 : Nat), (1 : Nat)) = flipTarget 4 5 1 1 3) :=
  backCorrection_marker 4 5 0 1 2 1 3 (1 : Int) 0 (by decide)
    (by decide) (by decide) (by decide) 0 1 2 1 1 (by decide) (by decide) (by decide)

/-- C3: `reshape_upsample` routes the tokens of plane `i` of batch element
`n` — the contiguous block `tokens[n, i*(H*W) + h*W + w, :]` — through the
shared upsampler and back into plane `i` of batch element `n` of the
output, for every batch element `n < N`. -/
theorem reshape_upsample_routing {α : Type} (N H W : Nat)
    (ups : T3 α → T3 α) (tokens : T3 α)
    (n i d h w : Nat) (hn : n < N) :
    reshape_upsample N H W ups tokens n i d h w =
      ups (fun dd hh ww => tokens n (i * (H * W) + hh * W + ww) dd) d h w := by
  have hN : 0 < N := Nat.pos_of_ne_zero (by omega)
  have h1 : (i * N + n) / N = i := by
    rw [Nat.mul_comm, Nat.mul_add_div hN, Nat.div_eq_of_lt hn, Nat.add_zero]
  have h2 : (i * N + n) % N = n := by
    rw [Nat.mul_comm, Nat.mul_add_mod, Nat.mod_eq_of_lt hn]
  simp only [reshape_upsample, h1, h2]

/-- C3 witness: concrete instance of `reshape_upsample_routing`. -/
theorem reshape_upsample_routing_witness :
    reshape_upsample 2 3 3 upsFix tokensFix 1 2 0 1 2 =
      upsFix (fun dd hh ww => tokensFix 1 (2 * (3 * 3) + hh * 3 + ww) dd) 0 1 2 :=
  reshape_upsample_routing 2 3 3 upsFix tokensFix 1 2 0 1 2 (by decide)

/-- C8: `forward_planes` is deterministic: with the parameter state fixed
(positional grid, encoder, camera embedder, transformer, upsampler), two
invocations on identical image and camera inputs return identical
triplanes.  The embedding is a pure function of its inputs and parameters;
no state is carried from one call to the next. -/
theorem forward_planes_deterministic {α : Type}
    (enc : T4 α → T3 α) (camE : T2 α → T2 α)
    (tr : T3 α → T3 α → T2 α → T3 α) (pos : T3 α)
    (N H W : Nat) (ups : T3 α → T3 α)
    (image image2 : T4 α) (camera camera2 : T2 α)
    (hI : image = image2) (hC : camera = camera2) :
    forward_planes enc camE tr pos N H W ups image camera =
      forward_planes enc camE tr pos N H W ups image2 camera2 := by
  rw [hI, hC]

/-- C8 witness: concrete instance of `forward_planes_deterministic`. -/
theorem forward_planes_deterministic_witness :
    imageFix = imageFix ∧
      forward_planes (fun x => fun n l d => x n l d 0) (fun c => c)
          (fun x _ _ => x) tokensFix 2 3 3 upsFix imageFix cameraFix =
        forward_planes (fun x => fun n l d => x n l d 0) (fun c => c)
          (fun x _ _ => x) tokensFix 2 3 3 upsFix imageFix cameraFix :=
  ⟨rfl, forward_planes_deterministic (fun x => fun n l d => x n l d 0) (fun c => c)
    (fun x _ _ => x) tokensFix 2 3 3 upsFix imageFix imageFix cameraFix cameraFix rfl rfl⟩

/-- Helper: `freezeIf` never touches the positional grid's flag. -/
theorem freezeIf_pos_embed (b : Bool) (slot : FreezeSlot) (s : FreezeState) :
    (freezeIf b slot s).pos_embed = s.pos_embed := by
  unfold freezeIf
  repeat' split
  all_goals rfl

/-- Helper: the only error of `dim0`. -/
theorem dim0_err (s : Shape) (e : LrmError) (h : dim0 s = .error e) :
    e = .indexOutOfRange := by
  unfold dim0 at h
  split at h <;> simp_all

/-- Helper: the only error of `dim1`. -/
theorem dim1_err (s : Shape) (e : LrmError) (h : dim1 s = .error e) :
    e = .indexOutOfRange := by
  unfold dim1 at h
  split at h <;> simp_all

/-- Helper: the only error of `catDim2`. -/
theorem catDim2_err (x y : Shape) (e : LrmError) (h : catDim2 x y = .error e) :
    e = .catShapeMismatch := by
  unfold catDim2 at h
  repeat' split at h
  all_goals simp_all

/-- Helper: the only error of `reshapeInfer3`. -/
theorem reshapeInfer3_err (a b c numel : Nat) (e : LrmError)
    (h : reshapeInfer3 a b c numel = .error e) : e = .viewSizeMismatch := by
  unfold reshapeInfer3 at h
  split at h <;> simp_all

/-- Helper: the only error of `viewInfer5`. -/
theorem viewInfer5_err (bs np hh ww numel : Nat) (e : LrmError)
    (h : viewInfer5 bs np hh ww numel = .error e) : e = .viewSizeMismatch := by
  unfold viewInfer5 at h
  split at h <;> simp_all

/-- Helper: the errors of `conv2d_k3s1p1`. -/
theorem conv2d_k3s1p1_err (cin cout : Nat) (s : Shape) (e : LrmError)
    (h : conv2d_k3s1p1 cin cout s = .error e) :
    e = .convShapeMismatch ∨ e = .unpackMismatch := by
  unfold conv2d_k3s1p1 at h
  repeat' split at h
  all_goals simp_all

/-- Helper: the errors of `layerNorm3`. -/
theorem layerNorm3_err (d0 d1 d2 : Nat) (s : Shape) (e : LrmError)
    (h : layerNorm3 d0 d1 d2 s = .error e) :
    e = .layerNormShapeMismatch ∨ e = .unpackMismatch := by
  unfold layerNorm3 at h
  repeat' split at h
  all_goals simp_all

/-- Helper: the errors of `convTranspose2d_k2s2`. -/
theorem convTranspose2d_k2s2_err (cin cout : Nat) (s : Shape) (e : LrmError)
    (h : convTranspose2d_k2s2 cin cout s = .error e) :
    e = .convShapeMismatch ∨ e = .unpackMismatch := by
  unfold convTranspose2d_k2s2 at h
  repeat' split at h
  all_goals simp_all

/-- Helper: the errors of `reshape_upsampleShape`. -/
theorem reshape_upsampleShape_err (cfg : Config) (t : Shape) (e : LrmError)
    (h : reshape_upsampleShape cfg t = .error e) :
    e = .viewSizeMismatch ∨ e = .convShapeMismatch ∨ e = .unpackMismatch := by
  unfold reshape_upsampleShape at h
  repeat' split at h
  all_goals
    first
    | (injection h with h2; subst h2;
       first
       | tauto
       | (have h9 := convTranspose2d_k2s2_err _ _ _ _ (by assumption); tauto))
    | simp_all

/-- Helper: the errors of `forward_planesShape`. -/
theorem forward_planesShape_err (m : Model) (enc camE : Shape → Shape)
    (tr : Shape → Shape → Shape → Shape) (image camera : Shape) (e : LrmError)
    (h : forward_planesShape m enc camE tr image camera = .error e) :
    e = .indexOutOfRange ∨ e = .featDimMismatch ∨ e = .camDimMismatch ∨
      e = .batchMismatchFeats ∨ e = .viewSizeMismatch ∨
      e = .convShapeMismatch ∨ e = .unpackMismatch ∨
      e = .planesBatchMismatch ∨ e = .planesNotThree := by
  unfold forward_planesShape at h
  repeat' split at h
  all_goals
    first
    | (injection h with h2; subst h2;
       first
       | tauto
       | (have h9 := dim0_err _ _ (by assumption); tauto)
       | (have h9 := dim1_err _ _ (by assumption); tauto)
       | (have h9 := reshape_upsampleShape_err _ _ _ (by assumption); tauto))
    | simp_all

/-- Helper: `forward_planesShape` never raises `UnboundLocalError`. -/
theorem forward_planesShape_ne_unbound (m : Model) (enc camE : Shape → Shape)
    (tr : Shape → Shape → Shape → Shape) (image camera : Shape) :
    forward_planesShape m enc camE tr image camera ≠
      .error .unboundLocalPlanes := by
  intro h
  rcases forward_planesShape_err m enc camE tr image camera _ h with
    h2 | h2 | h2 | h2 | h2 | h2 | h2 | h2 | h2 <;> cases h2

/-- Helper: the errors of `convFuseShape`. -/
theorem convFuseShape_err (cfg : Config) (bs np ch ht wd : Nat) (back : Shape)
    (e : LrmError) (h : convFuseShape cfg bs np ch ht wd back = .error e) :
    e = .catShapeMismatch ∨ e = .viewSizeMismatch ∨ e = .convShapeMismatch ∨
      e = .layerNormShapeMismatch ∨ e = .unpackMismatch := by
  unfold convFuseShape at h
  repeat' split at h
  all_goals
    first
    | (injection h with h2; subst h2;
       first
       | tauto
       | (have h9 := catDim2_err _ _ _ (by assumption); tauto)
       | (have h9 := reshapeInfer3_err _ _ _ _ _ (by assumption); tauto)
       | (have h9 := conv2d_k3s1p1_err _ _ _ _ (by assumption); tauto)
       | (have h9 := layerNorm3_err _ _ _ _ _ (by assumption); tauto))
    | (have h9 := viewInfer5_err _ _ _ _ _ _ h; tauto)

/-- Helper: the errors of `swinCaFuseShape`. -/
theorem swinCaFuseShape_err (ca : Shape → Shape → Shape)
    (bs np ch ht wd : Nat) (back : Shape) (e : LrmError)
    (h : swinCaFuseShape ca bs np ch ht wd back = .error e) :
    e = .viewSizeMismatch ∨ e = .unpackMismatch := by
  unfold swinCaFuseShape at h
  repeat' split at h
  all_goals simp_all

/-- Helper: with a fusion strategy configured, `fusePlanes` never raises
`UnboundLocalError`. -/
theorem fusePlanes_ne_unbound (m : Model) (ca : Shape → Shape → Shape)
    (front back : Shape)
    (hflag : m.cfg.conv_fuse = true ∨ m.cfg.swin_ca_fuse = true) :
    fusePlanes m ca front back ≠ .error .unboundLocalPlanes := by
  intro h
  unfold fusePlanes at h
  repeat' split at h
  · have h9 := convFuseShape_err _ _ _ _ _ _ _ _ h
    rcases h9 with h2 | h2 | h2 | h2 | h2 <;> cases h2
  · have h9 := swinCaFuseShape_err _ _ _ _ _ _ _ _ h
    rcases h9 with h2 | h2 <;> cases h2
  all_goals simp_all

/-- Helper: with a fusion strategy configured, `computePlanes` never
raises `UnboundLocalError`. -/
theorem computePlanes_ne_unbound (m : Model) (enc camE : Shape → Shape)
    (tr : Shape → Shape → Shape → Shape) (ca : Shape → Shape → Shape)
    (image source_camera : Shape) (image_back : Option Shape)
    (hflag : m.cfg.conv_fuse = true ∨ m.cfg.swin_ca_fuse = true) :
    computePlanes m enc camE tr ca image source_camera image_back ≠
      .error .unboundLocalPlanes := by
  intro h
  unfold computePlanes at h
  repeat' split at h
  all_goals
    first
    | (exact fusePlanes_ne_unbound _ _ _ _ hflag h)
    | (exact forward_planesShape_ne_unbound _ _ _ _ _ _ h)
    | (injection h with h2; subst h2;
       exact forward_planesShape_ne_unbound _ _ _ _ _ _ (by assumption))
    | simp_all

/-- Helper: the errors of `validateBatches`. -/
theorem validateBatches_err (a b c d f : Shape) (e : LrmError)
    (h : validateBatches a b c d f = .error e) :
    e = .indexOutOfRange ∨ isBatchAssert e = true := by
  unfold validateBatches at h
  repeat' split at h
  all_goals
    first
    | (injection h with h2; subst h2;
       first
       | (have h9 := dim0_err _ _ (by assumption); subst h9;
          simp [isBatchAssert])
       | simp [isBatchAssert])
    | simp_all [isBatchAssert]

/-- Helper: with a fusion strategy configured, the facade never raises
`UnboundLocalError`. -/
theorem forwardShape_ne_unbound (m : Model) (enc camE : Shape → Shape)
    (tr : Shape → Shape → Shape → Shape) (ca : Shape → Shape → Shape)
    (synth : Shape → Shape → Shape → Shape → Shape → Nat → RenderOut)
    (image source_camera render_cameras render_anchors render_resolutions
      render_bg_colors : Shape) (sz : Nat) (image_back : Option Shape)
    (hflag : m.cfg.conv_fuse = true ∨ m.cfg.swin_ca_fuse = true) :
    forwardShape m enc camE tr ca synth image source_camera render_cameras
      render_anchors render_resolutions render_bg_colors sz image_back ≠
      .error .unboundLocalPlanes := by
  intro h
  unfold forwardShape at h
  repeat' split at h
  all_goals
    first
    | (injection h with h2; subst h2;
       first
       | (rcases validateBatches_err _ _ _ _ _ _ (by assumption) with h3 | h3 <;>
           simp [isBatchAssert] at h3)
       | (exact computePlanes_ne_unbound _ _ _ _ _ _ _ _ hflag (by assumption)))
    | simp_all

/-- Helper: a successfully constructed model keeps its configuration. -/
theorem init_ok_cfg (cfg : Config) (m : Model) (h : init cfg = .ok m) :
    m.cfg = cfg := by
  unfold init at h
  repeat' split at h
  all_goals simp_all
  all_goals (cases h; rfl)

/-- Helper: a successfully constructed model with positive lora rank has a
fusion strategy. -/
theorem init_lora_flags (cfg : Config) (m : Model) (h : init cfg = .ok m)
    (hr : 0 < cfg.model_lora_rank) :
    cfg.conv_fuse = true ∨ cfg.swin_ca_fuse = true := by
  unfold init at h
  repeat' split at h
  all_goals simp_all

/-- C2 (amended): with `model_lora_rank > 0` (the configuration the
dual-view fine-tuning path uses) and a supported encoder type, selecting
neither fusion strategy makes construction fail with the `ValueError` of
line 104; and every successfully constructed model with positive lora rank
has a strategy, so a back image supplied at call time never reaches the
state where no fusion branch assigns `planes`.  (With
`model_lora_rank = 0` the constructor performs no such check — see the
counterexample.) -/
theorem fusion_config_error :
    (∀ cfg : Config,
      (strLower cfg.encoder_type = "dino".data ∨
        strLower cfg.encoder_type = "dinov2".data) →
      0 < cfg.model_lora_rank → cfg.conv_fuse = false → cfg.swin_ca_fuse = false →
      init cfg = .error .noFusionMethod) ∧
    (∀ (cfg : Config) (m : Model), init cfg = .ok m → 0 < cfg.model_lora_rank →
      ∀ enc camE tr ca synth image source_camera render_cameras render_anchors
        render_resolutions render_bg_colors (sz : Nat) image_back,
        forwardShape m enc camE tr ca synth image source_camera render_cameras
          render_anchors render_resolutions render_bg_colors sz image_back ≠
          .error .unboundLocalPlanes) := by
  constructor
  · intro cfg henc hr hc hs
    simp [init, henc, hr, hc, hs]
  · intro cfg m h hr enc camE tr ca synth image source_camera render_cameras
      render_anchors render_resolutions render_bg_colors sz image_back
    have hcfg := init_ok_cfg cfg m h
    have hflag := init_lora_flags cfg m h hr
    exact forwardShape_ne_unbound m enc camE tr ca synth image source_camera
      render_cameras render_anchors render_resolutions render_bg_colors sz
      image_back (by rw [hcfg]; exact hflag)

/-- C2 witness: concrete instances of both parts of `fusion_config_error`. -/
theorem fusion_config_error_witness :
    init cfgLoraNoFuse = .error .noFusionMethod ∧
    forwardShape mConvLora encFix camEFix transformerShapeContract caFix synthFix
      [1, 3, 8, 8] [1, 16] [1, 1, 6] [1, 1, 2] [1, 1, 1] [1, 1, 1] 64
      (some [1, 3, 8, 8]) ≠ .error .unboundLocalPlanes :=
  ⟨fusion_config_error.1 cfgLoraNoFuse (Or.inl (by decide)) (by decide) rfl rfl,
   fusion_config_error.2 cfgConvLora mConvLora (by decide) (by decide)
     encFix camEFix transformerShapeContract caFix synthFix
     [1, 3, 8, 8] [1, 16] [1, 1, 6] [1, 1, 2] [1, 1, 1] [1, 1, 1] 64
     (some [1, 3, 8, 8])⟩

/-- C2 counterexample: with `model_lora_rank = 0` and neither fusion
strategy selected, construction succeeds (no configuration error is
raised), and supplying a back image at call time does reach the state
where no fusion strategy exists — the `UnboundLocalError` of the unread
`planes` variable. -/
theorem fusion_config_counterexample :
    init cfgNoFuse = .ok mNoFuse ∧
    forwardShape mNoFuse encFix camEFix transformerShapeContract caFix synthFix
      [1, 3, 8, 8] [1, 16] [1, 1, 6] [1, 1, 2] [1, 1, 1] [1, 1, 1] 64
      (some [1, 3, 8, 8]) = .error .unboundLocalPlanes := by
  constructor
  · decide
  · decide

/-- C9: `freeze_modules` with `pos_embed=True` always raises (the
positional grid is a bare `nn.Parameter` with no `.parameters()`
iterator); no successful call ever changes the positional grid's
`requires_grad`; and the constructor never hits this error because its
internal calls pass `pos_embed=False`. -/
theorem freeze_pos_embed_error :
    (∀ (e c t u y : Bool) (s : FreezeState),
      freeze_modules e c true t u y s = .error .posEmbedNoParamsAttr) ∧
    (∀ (e c pe t u y : Bool) (s s2 : FreezeState),
      freeze_modules e c pe t u y s = .ok s2 → s2.pos_embed = s.pos_embed) ∧
    (∀ cfg : Config, init cfg ≠ .error .posEmbedNoParamsAttr) := by
  refine ⟨?_, ?_, ?_⟩
  · intro e c t u y s
    simp [freeze_modules]
  · intro e c pe t u y s s2 h
    unfold freeze_modules at h
    split at h
    · cases h
    · injection h with h2
      subst h2
      simp [freezeIf_pos_embed]
  · intro cfg h
    unfold init at h
    repeat' split at h
    all_goals simp_all [freeze_modules, freshFreezeState]

/-- C9 witness: concrete instances of all parts of
`freeze_pos_embed_error`. -/
theorem freeze_pos_embed_error_witness :
    freeze_modules true true true false false false freshFreezeState =
      .error .posEmbedNoParamsAttr ∧
    FreezeState.pos_embed ⟨false, false, true, true, true, true⟩ =
      freshFreezeState.pos_embed ∧
    init cfgNoFuse ≠ .error .posEmbedNoParamsAttr :=
  ⟨freeze_pos_embed_error.1 true true false false false freshFreezeState,
   freeze_pos_embed_error.2.1 true true false false false false
     freshFreezeState ⟨false, false, true, true, true, true⟩ (by decide),
   freeze_pos_embed_error.2.2 cfgNoFuse⟩

/-- C4: a batch-size mismatch between the image and the source camera, the
render cameras, the render anchors or the render background colors makes
the facade fail with one of the four batch asserts, for every choice of
the external submodules (encoder, camera embedder, transformer, fuser and
synthesizer are universally quantified, so none of them is consulted). -/
theorem forward_batch_validation
    (m : Model) (enc camE : Shape → Shape) (tr : Shape → Shape → Shape → Shape)
    (ca : Shape → Shape → Shape)
    (synth : Shape → Shape → Shape → Shape → Shape → Nat → RenderOut)
    (iN scN rcN raN rbN : Nat) (ti tsc trc tra trb rr : Shape) (sz : Nat)
    (image_back : Option Shape)
    (hmis : iN ≠ scN ∨ iN ≠ rcN ∨ iN ≠ raN ∨ iN ≠ rbN) :
    ∃ e, forwardShape m enc camE tr ca synth (iN :: ti) (scN :: tsc)
        (rcN :: trc) (raN :: tra) rr (rbN :: trb) sz image_back = .error e ∧
      isBatchAssert e = true := by
  by_cases h1 : iN = scN
  · subst h1
    by_cases h2 : iN = rcN
    · subst h2
      by_cases h3 : iN = raN
      · subst h3
        by_cases h4 : iN = rbN
        · subst h4
          rcases hmis with h | h | h | h <;> exact (h rfl).elim
        · exact ⟨.batchMismatchRenderBgColors,
            by simp [forwardShape, validateBatches, dim0, h4], rfl⟩
      · exact ⟨.batchMismatchRenderAnchors,
          by simp [forwardShape, validateBatches, dim0, h3], rfl⟩
    · exact ⟨.batchMismatchRenderCameras,
        by simp [forwardShape, validateBatches, dim0, h2], rfl⟩
  · exact ⟨.batchMismatchSourceCamera,
      by simp [forwardShape, validateBatches, dim0, h1], rfl⟩

/-- C4 witness: image batch 4 with camera batch 3 fails in validation. -/
theorem forward_batch_validation_witness :
    ∃ e, forwardShape mNoFuse encFix camEFix transformerShapeContract caFix
        synthFix [4, 3, 64, 64] [3, 16] [4, 1, 6] [4, 1, 2] [4, 1, 1]
        [4, 1, 1] 64 none = .error e ∧ isBatchAssert e = true :=
  forward_batch_validation mNoFuse encFix camEFix transformerShapeContract
    caFix synthFix 4 3 4 4 4 [3, 64, 64] [16] [1, 6] [1, 2] [1, 1] [4, 1, 1]
    64 none (Or.inl (by decide))

/-- Helper: on the token shape produced by the positional grid,
`reshape_upsampleShape` succeeds with the configured plane dimensions. -/
theorem reshape_upsampleShape_ok (cfg : Config) (n : Nat)
    (hLow : 0 < cfg.triplane_low_res) :
    reshape_upsampleShape cfg
        [n, 3 * cfg.triplane_low_res ^ 2, cfg.transformer_dim] =
      .ok [n, 3, cfg.triplane_dim,
        (cfg.triplane_low_res - 1) * 2 + (2 - 1) + 1,
        (cfg.triplane_low_res - 1) * 2 + (2 - 1) + 1] := by
  have h1 : 0 < 3 * cfg.triplane_low_res * cfg.triplane_low_res := by
    positivity
  have h2 : (3 * cfg.triplane_low_res * cfg.triplane_low_res) ∣
      (3 * cfg.triplane_low_res ^ 2 * cfg.transformer_dim) :=
    ⟨cfg.transformer_dim, by ring⟩
  have h3 : 3 * cfg.triplane_low_res ^ 2 * cfg.transformer_dim /
      (3 * cfg.triplane_low_res * cfg.triplane_low_res) =
      cfg.transformer_dim := by
    rw [show 3 * cfg.triplane_low_res ^ 2 * cfg.transformer_dim =
        3 * cfg.triplane_low_res * cfg.triplane_low_res *
          cfg.transformer_dim by ring]
    exact Nat.mul_div_cancel_left _ h1
  have hLe : 1 ≤ cfg.triplane_low_res := hLow
  simp only [reshape_upsampleShape]
  rw [if_pos ⟨h1, h2⟩, h3]
  simp [convTranspose2d_k2s2, hLe]

/-- Helper: on well-formed inputs whose encoder and camera-embedder
outputs match the configured dimensions, `forward_planesShape` succeeds
and returns the configured triplane shape. -/
theorem forward_planesShape_ok (m : Model) (enc camE : Shape → Shape)
    (tr : Shape → Shape → Shape → Shape) (N L C Hi Wi camR : Nat)
    (image camera : Shape)
    (hImg : image = [N, C, Hi, Wi]) (hCam : camera = [N, camR])
    (hEnc : enc image = [N, L, m.cfg.encoder_feat_dim])
    (hCamE : camE camera = [N, m.cfg.camera_embed_dim])
    (hTr : tr [N, 3 * m.cfg.triplane_low_res ^ 2, m.cfg.transformer_dim]
        (enc image) (camE camera) =
      [N, 3 * m.cfg.triplane_low_res ^ 2, m.cfg.transformer_dim])
    (hLow : 0 < m.cfg.triplane_low_res) :
    forward_planesShape m enc camE tr image camera =
      .ok (configuredPlaneShape m.cfg N) := by
  subst hImg; subst hCam
  have hL1 : (enc [N, C, Hi, Wi]).getLast? = some m.cfg.encoder_feat_dim := by
    rw [hEnc]; rfl
  have hL2 : (camE [N, camR]).getLast? = some m.cfg.camera_embed_dim := by
    rw [hCamE]; rfl
  unfold forward_planesShape
  simp only [dim0]
  rw [if_pos hL1, if_pos hL2, hEnc, hCamE]
  rw [hEnc, hCamE] at hTr
  simp only [dim0, if_pos rfl]
  rw [hTr, reshape_upsampleShape_ok m.cfg N hLow]
  simp [dim0, dim1, configuredPlaneShape]

/-- C5: for all valid (image, camera) pairs — 4-D image and 2-D camera of
batch size `N`, encoder output of the configured feature dimension,
camera-embedder output of the configured embedding dimension, transformer
obeying its shape contract — the plane generator returns a triplane of
shape `(N, 3, D2, H2, W2)` where `D2`, `H2`, `W2` depend only on the
configuration (see `configuredPlaneShape`) and not on `N`, and its two
post-condition asserts pass (the result is a success, not an error). -/
theorem forward_planesShape_output (m : Model) (enc camE : Shape → Shape)
    (tr : Shape → Shape → Shape → Shape) (N L C Hi Wi camR : Nat)
    (image camera : Shape)
    (hImg : image = [N, C, Hi, Wi]) (hCam : camera = [N, camR])
    (hEnc : enc image = [N, L, m.cfg.encoder_feat_dim])
    (hCamE : camE camera = [N, m.cfg.camera_embed_dim])
    (hTr : tr [N, 3 * m.cfg.triplane_low_res ^ 2, m.cfg.transformer_dim]
        (enc image) (camE camera) =
      [N, 3 * m.cfg.triplane_low_res ^ 2, m.cfg.transformer_dim])
    (hLow : 0 < m.cfg.triplane_low_res) :
    forward_planesShape m enc camE tr image camera =
      .ok (configuredPlaneShape m.cfg N) :=
  forward_planesShape_ok m enc camE tr N L C Hi Wi camR image camera
    hImg hCam hEnc hCamE hTr hLow

/-- C5 witness: concrete instance of `forward_planesShape_output`. -/
theorem forward_planesShape_output_witness :
    forward_planesShape mNoFuse encFix camEFix transformerShapeContract
      [1, 3, 8, 8] [1, 16] = .ok (configuredPlaneShape mNoFuse.cfg 1) :=
  forward_planesShape_output mNoFuse encFix camEFix transformerShapeContract
    1 5 3 8 8 16 [1, 3, 8, 8] [1, 16] rfl rfl rfl rfl rfl (by decide)

/-- C7: the plane generator fails with the encoder-dimension assert when
the encoder output's feature dimension differs from the configured one,
and with the camera-dimension assert when the camera embedding differs —
in both cases for every transformer, which is therefore never consulted —
and when both dimensions match, neither of these two asserts fires. -/
theorem forward_planes_dim_asserts :
    (∀ (m : Model) (enc camE : Shape → Shape)
      (tr : Shape → Shape → Shape → Shape) (image camera : Shape)
      (N : Nat) (rest : Shape), image = N :: rest →
      (enc image).getLast? ≠ some m.cfg.encoder_feat_dim →
      forward_planesShape m enc camE tr image camera =
        .error .featDimMismatch) ∧
    (∀ (m : Model) (enc camE : Shape → Shape)
      (tr : Shape → Shape → Shape → Shape) (image camera : Shape)
      (N : Nat) (rest : Shape), image = N :: rest →
      (enc image).getLast? = some m.cfg.encoder_feat_dim →
      (camE camera).getLast? ≠ some m.cfg.camera_embed_dim →
      forward_planesShape m enc camE tr image camera =
        .error .camDimMismatch) ∧
    (∀ (m : Model) (enc camE : Shape → Shape)
      (tr : Shape → Shape → Shape → Shape) (image camera : Shape),
      (enc image).getLast? = some m.cfg.encoder_feat_dim →
      (camE camera).getLast? = some m.cfg.camera_embed_dim →
      forward_planesShape m enc camE tr image camera ≠
          .error .featDimMismatch ∧
        forward_planesShape m enc camE tr image camera ≠
          .error .camDimMismatch) := by
  refine ⟨?_, ?_, ?_⟩
  · intro m enc camE tr image camera N rest hImg hne
    subst hImg
    unfold forward_planesShape
    simp only [dim0]
    rw [if_neg hne]
  · intro m enc camE tr image camera N rest hImg hfeats hne
    subst hImg
    unfold forward_planesShape
    simp only [dim0]
    rw [if_pos hfeats, if_neg hne]
  · intro m enc camE tr image camera hfeats hcam
    constructor
    all_goals
      intro hcontra
      unfold forward_planesShape at hcontra
      split at hcontra
      case _ =>
        injection hcontra with h2
        have h9 := dim0_err _ _ (by assumption)
        simp_all
      case _ =>
        rw [if_pos hfeats, if_pos hcam] at hcontra
        repeat' split at hcontra
        all_goals
          first
          | (injection hcontra with h2;
             first
             | (have h9 := dim0_err _ _ (by assumption); simp_all)
             | (have h9 := dim1_err _ _ (by assumption); simp_all)
             | (have h9 := reshape_upsampleShape_err _ _ _ (by assumption);
                rcases h9 with h3 | h3 | h3 <;> simp_all)
             | simp_all)
          | simp_all

/-- C7 witness: concrete instances of all three parts of
`forward_planes_dim_asserts`. -/
theorem forward_planes_dim_asserts_witness :
    forward_planesShape mNoFuse encBad camEFix transformerShapeContract
        [1, 3, 8, 8] [1, 16] = .error .featDimMismatch ∧
    forward_planesShape mNoFuse encFix camEBad transformerShapeContract
        [1, 3, 8, 8] [1, 16] = .error .camDimMismatch ∧
    forward_planesShape mNoFuse encFix camEFix transformerShapeContract
        [1, 3, 8, 8] [1, 16] ≠ .error .featDimMismatch ∧
    forward_planesShape mNoFuse encFix camEFix transformerShapeContract
        [1, 3, 8, 8] [1, 16] ≠ .error .camDimMismatch :=
  ⟨forward_planes_dim_asserts.1 mNoFuse encBad camEFix
      transformerShapeContract [1, 3, 8, 8] [1, 16] 1 [3, 8, 8] rfl
      (by decide),
   forward_planes_dim_asserts.2.1 mNoFuse encFix camEBad
      transformerShapeContract [1, 3, 8, 8] [1, 16] 1 [3, 8, 8] rfl
      (by decide) (by decide),
   forward_planes_dim_asserts.2.2 mNoFuse encFix camEFix
      transformerShapeContract [1, 3, 8, 8] [1, 16] (by decide) (by decide)⟩

/-- C6: both fusion strategies preserve the triplane shape.  For the
convolutional branch the triplane has the configured channel and spatial
dimensions (the conv stack and the layer norms are built from the
configuration); for the cross-attention branch any `(N, 3, D, H, W)`
triplane works provided the external `CrossAttentionLayer` obeys its
same-shape token contract. -/
theorem fusion_shape_preserving :
    (∀ (cfg : Config) (fs : FreezeState) (ca : Shape → Shape → Shape)
      (N : Nat), cfg.conv_fuse = true → 0 < N → 0 < cfg.triplane_dim →
      0 < cfg.triplane_high_res →
      fusePlanes ⟨cfg, fs⟩ ca
          [N, 3, cfg.triplane_dim, cfg.triplane_high_res,
            cfg.triplane_high_res]
          [N, 3, cfg.triplane_dim, cfg.triplane_high_res,
            cfg.triplane_high_res] =
        .ok [N, 3, cfg.triplane_dim, cfg.triplane_high_res,
          cfg.triplane_high_res]) ∧
    (∀ (cfg : Config) (fs : FreezeState) (ca : Shape → Shape → Shape)
      (N D Hs Ws : Nat), cfg.conv_fuse = false → cfg.swin_ca_fuse = true →
      ca [N * 3, Hs * Ws, D] [N * 3, Hs * Ws, D] = [N * 3, Hs * Ws, D] →
      fusePlanes ⟨cfg, fs⟩ ca [N, 3, D, Hs, Ws] [N, 3, D, Hs, Ws] =
        .ok [N, 3, D, Hs, Ws]) := by
  constructor
  · intro cfg fs ca N hc hN hD hH
    have hLe1 : 1 ≤ cfg.triplane_high_res := hH
    have hpos1 : 0 < cfg.triplane_dim * 2 * cfg.triplane_high_res *
        cfg.triplane_high_res := by positivity
    have hpos2 : 0 < N * 3 * cfg.triplane_high_res * cfg.triplane_high_res := by
      positivity
    have hsp : (cfg.triplane_high_res + 2 * 1 - 3) / 1 + 1 =
        cfg.triplane_high_res := by omega
    have s1 : catDim2
        [N, 3, cfg.triplane_dim, cfg.triplane_high_res, cfg.triplane_high_res]
        [N, 3, cfg.triplane_dim, cfg.triplane_high_res, cfg.triplane_high_res] =
        .ok [N, 3, cfg.triplane_dim + cfg.triplane_dim, cfg.triplane_high_res,
          cfg.triplane_high_res] := by
      simp [catDim2]
    have e1 : ([N, 3, cfg.triplane_dim + cfg.triplane_dim,
        cfg.triplane_high_res, cfg.triplane_high_res] : Shape).prod =
        cfg.triplane_dim * 2 * cfg.triplane_high_res * cfg.triplane_high_res *
          (3 * N) := by
      simp [List.prod_cons]
      ring
    have s2 : reshapeInfer3 (cfg.triplane_dim * 2) cfg.triplane_high_res
        cfg.triplane_high_res
        (([N, 3, cfg.triplane_dim + cfg.triplane_dim, cfg.triplane_high_res,
          cfg.triplane_high_res] : Shape).prod) =
        .ok [3 * N, cfg.triplane_dim * 2, cfg.triplane_high_res,
          cfg.triplane_high_res] := by
      rw [e1]
      unfold reshapeInfer3
      rw [if_pos ⟨hpos1, ⟨3 * N, rfl⟩⟩, Nat.mul_div_cancel_left _ hpos1]
    have s3 : conv2d_k3s1p1 (cfg.triplane_dim * 2) (cfg.triplane_dim * 4)
        [3 * N, cfg.triplane_dim * 2, cfg.triplane_high_res,
          cfg.triplane_high_res] =
        .ok [3 * N, cfg.triplane_dim * 4, cfg.triplane_high_res,
          cfg.triplane_high_res] := by
      simp [conv2d_k3s1p1, hLe1]
    have s4 : layerNorm3 (cfg.triplane_dim * 4) cfg.triplane_high_res
        cfg.triplane_high_res
        [3 * N, cfg.triplane_dim * 4, cfg.triplane_high_res,
          cfg.triplane_high_res] =
        .ok [3 * N, cfg.triplane_dim * 4, cfg.triplane_high_res,
          cfg.triplane_high_res] := by
      simp [layerNorm3]
    have s5 : conv2d_k3s1p1 (cfg.triplane_dim * 4) (cfg.triplane_dim * 4)
        [3 * N, cfg.triplane_dim * 4, cfg.triplane_high_res,
          cfg.triplane_high_res] =
        .ok [3 * N, cfg.triplane_dim * 4, cfg.triplane_high_res,
          cfg.triplane_high_res] := by
      simp [conv2d_k3s1p1, hLe1]
    have s7 : conv2d_k3s1p1 (cfg.triplane_dim * 4) cfg.triplane_dim
        [3 * N, cfg.triplane_dim * 4, cfg.triplane_high_res,
          cfg.triplane_high_res] =
        .ok [3 * N, cfg.triplane_dim, cfg.triplane_high_res,
          cfg.triplane_high_res] := by
      simp [conv2d_k3s1p1, hLe1]
    have e2 : ([3 * N, cfg.triplane_dim, cfg.triplane_high_res,
        cfg.triplane_high_res] : Shape).prod =
        N * 3 * cfg.triplane_high_res * cfg.triplane_high_res *
          cfg.triplane_dim := by
      simp [List.prod_cons]
      ring
    have s8 : viewInfer5 N 3 cfg.triplane_high_res cfg.triplane_high_res
        (([3 * N, cfg.triplane_dim, cfg.triplane_high_res,
          cfg.triplane_high_res] : Shape).prod) =
        .ok [N, 3, cfg.triplane_dim, cfg.triplane_high_res,
          cfg.triplane_high_res] := by
      rw [e2]
      unfold viewInfer5
      rw [if_pos ⟨hpos2, ⟨cfg.triplane_dim, rfl⟩⟩,
        Nat.mul_div_cancel_left _ hpos2]
    simp only [fusePlanes, hc, if_true, convFuseShape, s1, s2, s3, s4, s5,
      s7, s8]
  · intro cfg fs ca N D Hs Ws hc hs hca
    have hp : ([N, 3, D, Hs, Ws] : Shape).prod = N * 3 * D * Hs * Ws := by
      simp [List.prod_cons]
      ring
    have hq : N * 3 * D * (Hs * Ws) = N * 3 * D * Hs * Ws := by ring
    simp only [fusePlanes, hc, hs, if_false, if_true, Bool.false_eq_true,
      swinCaFuseShape, hp, hca]
    rw [if_pos hq]

/-- C6 witness: concrete instances of both parts of
`fusion_shape_preserving`. -/
theorem fusion_shape_preserving_witness :
    fusePlanes mConvLora caFix [1, 3, 1, 2, 2] [1, 3, 1, 2, 2] =
        .ok [1, 3, 1, 2, 2] ∧
    fusePlanes mSwinLora caFix [1, 3, 1, 2, 2] [1, 3, 1, 2, 2] =
        .ok [1, 3, 1, 2, 2] :=
  ⟨fusion_shape_preserving.1 cfgConvLora mConvLora.trainState caFix 1
      rfl (by decide) (by decide) (by decide),
   fusion_shape_preserving.2 cfgSwinLora mSwinLora.trainState caFix 1 1 2 2
      rfl rfl rfl⟩

/-- C10: the facade's batch validation never looks at the render
resolutions: with every checked tensor consistent at batch size `N` and a
resolutions tensor of any (in particular a different) batch size,
validation passes, the call succeeds, and the renderer receives exactly
the mismatched resolutions tensor (the probe synthesizer returns its
resolutions argument in the auxiliary field, which in the result equals
`rr` unchanged). -/
theorem forward_resolutions_unchecked
    (m : Model) (enc camE : Shape → Shape) (tr : Shape → Shape → Shape → Shape)
    (ca : Shape → Shape → Shape)
    (N L C Hi Wi camR M : Nat) (trc tra trb rr : Shape) (sz : Nat)
    (image camera : Shape)
    (hImg : image = [N, C, Hi, Wi]) (hCam : camera = [N, camR])
    (hEnc : enc image = [N, L, m.cfg.encoder_feat_dim])
    (hCamE : camE camera = [N, m.cfg.camera_embed_dim])
    (hTr : tr [N, 3 * m.cfg.triplane_low_res ^ 2, m.cfg.transformer_dim]
        (enc image) (camE camera) =
      [N, 3 * m.cfg.triplane_low_res ^ 2, m.cfg.transformer_dim])
    (hLow : 0 < m.cfg.triplane_low_res)
    (_hrr : dim0 rr ≠ .ok N) :
    forwardShape m enc camE tr ca (fun _p _c _a r _b _s => ⟨[N, M], r⟩)
      image camera (N :: M :: trc) (N :: tra) rr (N :: trb) sz none =
      .ok ⟨configuredPlaneShape m.cfg N, [N, M], rr⟩ := by
  have hfp := forward_planesShape_ok m enc camE tr N L C Hi Wi camR image
    camera hImg hCam hEnc hCamE hTr hLow
  subst hImg; subst hCam
  simp [forwardShape, validateBatches, dim0, computePlanes, hfp,
    configuredPlaneShape]

/-- C10 witness: concrete instance of `forward_resolutions_unchecked`
with a resolutions tensor of batch size 9 against image batch size 1. -/
theorem forward_resolutions_unchecked_witness :
    forwardShape mNoFuse encFix camEFix transformerShapeContract caFix
      (fun _p _c _a r _b _s => ⟨[1, 1], r⟩) [1, 3, 8, 8] [1, 16]
      (1 :: 1 :: [6]) (1 :: [1, 2]) [9, 1, 1] (1 :: [1, 1]) 64 none =
      .ok ⟨configuredPlaneShape mNoFuse.cfg 1, [1, 1], [9, 1, 1]⟩ :=
  forward_resolutions_unchecked mNoFuse encFix camEFix
    transformerShapeContract caFix 1 5 3 8 8 16 1 [6] [1, 2] [1, 1]
    [9, 1, 1] 64 [1, 3, 8, 8] [1, 16] rfl rfl rfl rfl rfl (by decide)
    (by decide)

end Tailor3D
